import Mathlib

/-!
Verification of the retrieval-generation-validation loop of the RAG email
assistant (`app/graph/workflow.py`, `app/agents/rag_agent.py`,
`app/agents/gemini_agent.py`).

The Python code is shallowly embedded: dictionaries become structures whose
optional keys are `Option` fields, Python `None` is `Option.none`, Python
floats are modelled as rationals `ℚ`, external calls (the Gemini model, the
vector store) are oracle function parameters, and a Python function that can
raise an uncaught exception returns `Except PyExc`.  Python truthiness of a
possibly-missing string value (`if d.get(k):`) is `pyTruthyStr`: true exactly
for a present, non-empty string.
-/

/-- A Python exception observed at a call boundary: `msg` models `str(e)` and
`type` models `type(e).__name__`. -/
structure PyExc where
  msg : String
  type : String
deriving Repr, DecidableEq

/-- The object returned by `model.generate_content_async`: its `text` attribute
(Python `None` becomes `none`) and the optional metadata attributes read via
`getattr(response, ..., None)`. -/
structure GeminiResponse where
  text : Option String := none
  finish_reason : Option String := none
  prompt_token_count : Option Nat := none
  completion_token_count : Option Nat := none
deriving Repr, DecidableEq

/-- The `metadata` dictionary of a Generation Result.  Each field models a key
that may be absent (`none`). -/
structure GenMeta where
  error_type : Option String := none
  model : Option String := none
  finish_reason : Option String := none
  prompt_tokens : Option Nat := none
  completion_tokens : Option Nat := none
deriving Repr, DecidableEq

/-- One entry of the `sources` list built by `RAGAgent.process_query`:
`{"content": ..., "metadata": ..., "relevance_score": ...}`.  The document
metadata is reduced to its `source` key, the only one the code ever reads. -/
structure SourceEntry where
  content : String
  source : Option String := none
  relevance_score : ℚ
deriving Repr, DecidableEq

/-- A Generation Result dictionary `{answer, error, sources, metadata}`.
`none` models an absent key or a `None` value (the code never distinguishes
the two: it only reads these keys with `.get` or truthiness tests, except for
`answer` which every constructed result carries). -/
structure GenResult where
  answer : Option String := none
  error : Option String := none
  sources : Option (List SourceEntry) := none
  metadata : GenMeta := {}
deriving Repr, DecidableEq

/-- A candidate document from the vector store: `{"content": ..., "metadata":
{"source": ...}}`.  The metadata mapping is reduced to its `source` key, the
only key the code reads (`doc["metadata"].get("source", "Unknown")`). -/
structure Document where
  content : String
  source : Option String := none
deriving Repr, DecidableEq

/-- A candidate document after `RAGAgent.retrieve_relevant_documents` attached
`doc["score"] = relevance_score`. -/
structure ScoredDocument where
  doc : Document
  score : ℚ
deriving Repr, DecidableEq

/-- Python truthiness of a possibly-absent string value: `if d.get(k):` is
taken exactly when the key is present with a non-empty string. -/
def pyTruthyStr (o : Option String) : Bool := !(o.getD "" == "")

/-- Python `str.strip()` with no argument: drop leading and trailing
whitespace.  (Defined structurally on the character list so that concrete
instances reduce; `String.trim` computes the same characters.) -/
def pyStrip (s : String) : String :=
  ⟨((s.data.dropWhile Char.isWhitespace).reverse.dropWhile Char.isWhitespace).reverse⟩

/-- Rendering of a Python value `str | None` inside an f-string: `None` prints
as the text `None`. -/
def pyStrOptional : Option String → String
  | none => "None"
  | some s => s

/-- `GeminiAgent._prepare_prompt`: with falsy (empty) context the prompt is the
bare query, otherwise the f-string joining the context entries. -/
def prepare_prompt (query : String) (context : List String) : String :=
  if context = [] then query
  else
    "Context information:\n        " ++ String.intercalate "\n" context ++
      " Based on the above context,\n        please answer the following question:\n        " ++
      query ++ "\n        "

/-- The result returned by `GeminiAgent.generate_response` when the model call
succeeds but `not response or not response.text` holds. -/
def modelErrorResult : GenResult :=
  { answer := none
    error := some "No response generated from the model"
    metadata := { error_type := some "ModelError" } }

/-- The result returned by `GeminiAgent.generate_response` when the query is
empty after trimming. -/
def emptyQueryResult : GenResult :=
  { answer := none
    error := some "Query cannot be empty"
    metadata := { error_type := some "ValueError" } }

/-- `GeminiAgent.generate_response`.  `modelCall` is the oracle for
`model.generate_content_async`: `Except.error e` models a raised exception
(caught by the surrounding `try`), `Except.ok none` a falsy response object,
`Except.ok (some r)` a response object `r`.  The second component of the
result records whether the model was invoked (false only on the empty-query
early return, which precedes the call). -/
def generate_response (modelCall : String → Except PyExc (Option GeminiResponse))
    (query : String) (context : List String) : GenResult × Bool :=
  if pyStrip query = "" then
    (emptyQueryResult, false)
  else
    match modelCall (prepare_prompt query context) with
    | Except.error e =>
      ({ answer := none, error := some e.msg, metadata := { error_type := some e.type } }, true)
    | Except.ok none => (modelErrorResult, true)
    | Except.ok (some r) =>
      match r.text with
      | none => (modelErrorResult, true)
      | some t =>
        if t = "" then (modelErrorResult, true)
        else
          ({ answer := some (pyStrip t)
             metadata :=
               { model := some "gemini-pro"
                 finish_reason := r.finish_reason
                 prompt_tokens := r.prompt_token_count
                 completion_tokens := r.completion_token_count } }, true)

/-- The rating prompt built by `GeminiAgent.analyze_relevance`. -/
def relevancePrompt (query document : String) : String :=
  "On a scale of 0 to 1, how relevant is this document to the query?\n            Query: " ++
    query ++ "\n            Document: " ++ document ++
    "\n\n            Provide only the numerical score without any explanation.\n            "

/-- `GeminiAgent.analyze_relevance`.  `parseFloat` is the oracle for Python
`float(...)` on the trimmed model text (`none` models a raised `ValueError`).
Every failure path — a raised model exception, a falsy response object (whose
`.text` access raises), a `None` text (whose `.strip()` raises), or an
unparseable text — is caught by the surrounding `try` and yields `0.0`;
otherwise the parsed score is clamped by `min(max(score, 0), 1)`. -/
def analyze_relevance (modelCall : String → Except PyExc (Option GeminiResponse))
    (parseFloat : String → Option ℚ) (query document : String) : ℚ :=
  match modelCall (relevancePrompt query document) with
  | Except.error _ => 0
  | Except.ok none => 0
  | Except.ok (some r) =>
    match r.text with
    | none => 0
    | some t =>
      match parseFloat (pyStrip t) with
      | none => 0
      | some score => min (max score 0) 1

/-- `RAGAgent._prepare_context`: each document becomes
`f"{content}\nSource: {metadata.get('source', 'Unknown')}"`, order preserved. -/
def prepare_context (documents : List ScoredDocument) : List String :=
  documents.map (fun d => d.doc.content ++ "\n" ++ "Source: " ++ d.doc.source.getD "Unknown")

/-- The score-and-filter pass of `RAGAgent.retrieve_relevant_documents`: the
`for doc in candidates` loop that scores each candidate with
`llm.analyze_relevance` (here the oracle `scorer`, applied to the document
content) and keeps those with `relevance_score >= SIMILARITY_THRESHOLD`
(threshold inclusive), attaching the score.  Input order is preserved. -/
def scoreAndFilterDocs (threshold : ℚ) (scorer : String → ℚ) :
    List Document → List ScoredDocument
  | [] => []
  | d :: rest =>
    if threshold ≤ scorer d.content then
      ⟨d, scorer d.content⟩ :: scoreAndFilterDocs threshold scorer rest
    else scoreAndFilterDocs threshold scorer rest

/-- `RAGAgent.retrieve_relevant_documents` after the vector-store call:
`candidates` is the list returned by `vector_store.similarity_search`,
`threshold` is `settings.SIMILARITY_THRESHOLD`.  The final
`relevant_docs.sort(key=lambda x: x["score"], reverse=True)` is CPython
Timsort with a reversed key order: a stable non-increasing sort by score,
which is exactly `List.mergeSort` with `le a b := b.score ≤ a.score`. -/
def retrieve_relevant_documents (threshold : ℚ) (scorer : String → ℚ)
    (candidates : List Document) : List ScoredDocument :=
  (scoreAndFilterDocs threshold scorer candidates).mergeSort
    (fun a b => decide (b.score ≤ a.score))

/-- The fallback answer installed by `RAGAgent.process_query` when the
response has no truthy answer. -/
def noRelevantMsg : String :=
  "I couldn\x27t find any relevant information in your emails to answer this question."

/-- The message of the `TypeError` raised when `process_query` forwards a
`context` entry of `**kwargs` into `generate_response(query=query,
context=context, **kwargs)` (CPython: got multiple values for a keyword
argument). -/
def duplicateContextMsg : String :=
  "GeminiAgent.generate_response() got multiple values for keyword argument \x27context\x27"

/-- The `sources` list built by `process_query` from the relevant documents. -/
def sourcesOf (docs : List ScoredDocument) : List SourceEntry :=
  docs.map (fun d =>
    { content := d.doc.content, source := d.doc.source, relevance_score := d.score })

/-- `RAGAgent.process_query`.  Oracles: `retriever` for its own
`retrieve_relevant_documents(query)` call (line 38 — executed first, inside
the `try`), `genResp` for `llm.generate_response`.  `kwargsHaveContext` is
true when the caller put a `context` key into `**kwargs` (the workflow always
does); in that case the inner `generate_response(query=query,
context=context, **kwargs)` call raises a `TypeError` for the duplicate
keyword, caught by the `except` and returned as an error result.  The second
component counts the `retrieve_relevant_documents` invocations performed
(always exactly one, at the top of the `try`). -/
def process_query (retriever : String → List ScoredDocument)
    (genResp : String → List String → GenResult)
    (query : String) (kwargsHaveContext : Bool) : GenResult × Nat :=
  let relevant_docs := retriever query
  let context := if relevant_docs = [] then [] else prepare_context relevant_docs
  if kwargsHaveContext then
    ({ answer := none
       error := some duplicateContextMsg
       sources := some []
       metadata := { error_type := some "TypeError" } }, 1)
  else
    let response := genResp query context
    if pyTruthyStr response.error then (response, 1)
    else
      let response2 := { response with sources := some (sourcesOf relevant_docs) }
      if pyTruthyStr response2.answer then (response2, 1)
      else ({ response2 with answer := some noRelevantMsg }, 1)

/-- The Loop State dictionary threaded through the workflow nodes.  `none`
models an absent key (every `state.get`/`state[...]` access in the source is
modelled on the corresponding `Option` field). -/
structure WFState where
  query : String := ""
  context : List ScoredDocument := []
  response : Option GenResult := none
  attempt : Option Nat := none
  valid : Option Bool := none
  quality_score : Option ℚ := none
  error : Option String := none
deriving Repr, DecidableEq

/-- `RAGWorkflow._retrieve_context`: fetches context via
`rag_agent.retrieve_relevant_documents(query)` (oracle `retriever`) and sets
`attempt = 0`. -/
def retrieve_context (retriever : String → List ScoredDocument) (s : WFState) : WFState :=
  { s with context := retriever s.query, attempt := some 0 }

/-- `RAGWorkflow._generate_response`: calls
`rag_agent.process_query(query=query, context=[doc["content"] for doc in
context])` (oracle `pq`, whose second component counts retrievals performed
inside it) and increments `attempt` (`state.get("attempt", 0) + 1`). -/
def generate_response_node (pq : String → List String → GenResult × Nat)
    (s : WFState) : WFState × Nat :=
  let pr := pq s.query (s.context.map (fun d => d.doc.content))
  ({ s with response := some pr.1, attempt := some (s.attempt.getD 0 + 1) }, pr.2)

/-- The f-string validation prompt of `RAGWorkflow._validate_response`;
`response["answer"]` may be `None`, which renders as `None`. -/
def validationPrompt (answer : Option String) : String :=
  "Rate the quality of this response on a scale of 0 to 1:\n" ++ pyStrOptional answer ++
    "\n\nProvide only the numerical score."

/-- The quality threshold `0.7` compared against in `_validate_response`
(written as the reduced fraction 7/10 directly, so that concrete states
evaluate by kernel reduction; `VALIDATION_THRESHOLD_eq` below identifies it
with `7 / 10`). -/
def VALIDATION_THRESHOLD : ℚ := ⟨7, 10, by decide, by decide⟩

/-- `RAGWorkflow._validate_response`.  `valCall` is the oracle for
`llm_agent.generate_response(validation_prompt)`, `pf` for Python `float`
(`none` models a raised `ValueError`).  An `Except.error` result models an
exception escaping this node (this method has no `try`): a missing
`"response"` key (`KeyError`), a `None` answer (`.strip()` raises
`AttributeError`), or non-numeric validator output (`float` raises
`ValueError`).  The `if response.get("error"):` short-circuit fires on a
truthy (present and non-empty) error, before the model call; the Boolean
component records whether the validator model call was made. -/
def validate_response (valCall : String → GenResult) (pf : String → Option ℚ)
    (s : WFState) : Except PyExc WFState × Bool :=
  match s.response with
  | none => (Except.error ⟨"\x27response\x27", "KeyError"⟩, false)
  | some r =>
    if pyTruthyStr r.error then
      (Except.ok { s with valid := some false, error := r.error }, false)
    else
      match (valCall (validationPrompt r.answer)).answer with
      | none =>
        (Except.error ⟨"\x27NoneType\x27 object has no attribute \x27strip\x27",
          "AttributeError"⟩, true)
      | some a =>
        match pf (pyStrip a) with
        | none =>
          (Except.error ⟨"could not convert string to float", "ValueError"⟩, true)
        | some q =>
          (Except.ok
            { s with
              valid := some (decide (VALIDATION_THRESHOLD ≤ q))
              quality_score := some q }, true)

/-- `RAGWorkflow._should_regenerate`:
`not state.get("valid", False) and state.get("attempt", 0) < 3`. -/
def should_regenerate (s : WFState) : Bool :=
  !(s.valid.getD false) && decide (s.attempt.getD 0 < 3)

/-- Outcome of running the compiled graph on one query: the final Loop State
(or the exception that escaped a node), together with the number of GENERATE
node executions and the total number of
`RAGAgent.retrieve_relevant_documents` invocations performed. -/
structure LoopOutcome where
  result : Except PyExc WFState
  genCalls : Nat
  retrievalCalls : Nat
deriving Repr

/-- The generate–validate cycle of the compiled graph: run GENERATE, then
VALIDATE, then loop back to GENERATE iff `should_regenerate`.  The `fuel`
argument only makes the recursion structural; it is not part of the source
semantics: `gen_validate_loop_spec` below proves the fuel-exhaustion branch is
unreachable (every exit is decided by `should_regenerate`) whenever
`3 - attempt ≤ fuel`, as at the entry point, where RETRIEVE has just set
`attempt = 0` and the graph runs with fuel 3. -/
def gen_validate_loop (pq : String → List String → GenResult × Nat)
    (valCall : String → GenResult) (pf : String → Option ℚ) :
    Nat → WFState → LoopOutcome
  | 0, s => ⟨Except.ok s, 0, 0⟩
  | fuel + 1, s =>
    let g := generate_response_node pq s
    match (validate_response valCall pf g.1).1 with
    | Except.error e => ⟨Except.error e, 1, g.2⟩
    | Except.ok s2 =>
      if should_regenerate s2 then
        let o := gen_validate_loop pq valCall pf fuel s2
        ⟨o.result, o.genCalls + 1, o.retrievalCalls + g.2⟩
      else ⟨Except.ok s2, 1, g.2⟩

/-- `graph.arun(inputs)`: the compiled graph enters at RETRIEVE (one retrieval,
`attempt = 0`) and then runs the generate–validate cycle. -/
def graph_arun (retriever : String → List ScoredDocument)
    (pq : String → List String → GenResult × Nat)
    (valCall : String → GenResult) (pf : String → Option ℚ)
    (inputs : WFState) : LoopOutcome :=
  let o := gen_validate_loop pq valCall pf 3 (retrieve_context retriever inputs)
  { o with retrievalCalls := o.retrievalCalls + 1 }

/-- The dictionary returned by `RAGWorkflow.run`.  Python puts
`quality_score` and `attempts` inside the returned `metadata` mapping; they
are flattened into their own fields here, next to the spread response
metadata `meta`.  `error := none` models the `"error"` key being absent (the
success path of `run` builds a dictionary without it). -/
structure RunResult where
  answer : Option String := none
  sources : List SourceEntry := []
  error : Option String := none
  quality_score : Option ℚ := none
  attempts : Option Nat := none
  meta : GenMeta := {}
deriving Repr, DecidableEq

/-- `RAGWorkflow.run`: formats the final state on success; any exception
escaping `graph.arun` or the formatting (here: a missing `"response"` key)
is caught and converted to the error dictionary. -/
def workflow_run (retriever : String → List ScoredDocument)
    (pq : String → List String → GenResult × Nat)
    (valCall : String → GenResult) (pf : String → Option ℚ)
    (inputs : WFState) : RunResult :=
  match (graph_arun retriever pq valCall pf inputs).result with
  | Except.error e =>
    { answer := none
      sources := []
      error := some e.msg
      meta := { error_type := some e.type } }
  | Except.ok result =>
    match result.response with
    | none =>
      { answer := none
        sources := []
        error := some "\x27response\x27"
        meta := { error_type := some "KeyError" } }
    | some response =>
      { answer := response.answer
        sources := response.sources.getD []
        error := none
        quality_score := result.quality_score
        attempts := some (result.attempt.getD 1)
        meta := response.metadata }

/-- The `process_query` call made by `RAGWorkflow._generate_response`:
`rag_agent.process_query(query=query, context=[...])` — `query` binds the
positional parameter and `context` lands in `**kwargs` (so
`kwargsHaveContext` is true); the passed context value itself is never
consumed by `process_query`, which performs its own retrieval. -/
def workflow_pq (retriever : String → List ScoredDocument)
    (genResp : String → List String → GenResult) :
    String → List String → GenResult × Nat :=
  fun query _ctx => process_query retriever genResp query true

/-- A vector-store oracle returning no candidates (concrete test input). -/
def demoRetriever : String → List ScoredDocument := fun _ => []

/-- A model oracle for `RAGAgent`: always answers `ok` (concrete test input). -/
def demoGenResp : String → List String → GenResult := fun _ _ => { answer := some "ok" }

/-- The `process_query` closure exactly as `_generate_response` invokes it
(with `context` in `**kwargs`), over the demo oracles. -/
def demoPQ : String → List String → GenResult × Nat := workflow_pq demoRetriever demoGenResp

/-- A validator-model oracle always rating `1.0` (concrete test input). -/
def demoValCall : String → GenResult := fun _ => { answer := some "1.0" }

/-- A Python `float` oracle parsing only the literal `1.0` (concrete test
input). -/
def demoPF : String → Option ℚ := fun s => if s = "1.0" then some 1 else none

/-- A `process_query` oracle that always succeeds with answer `a` and performs
one retrieval, bypassing the duplicate-kwarg defect (concrete test input). -/
def okPQ : String → List String → GenResult × Nat := fun _ _ => ({ answer := some "a" }, 1)

/-- A validator-model oracle whose result has `answer = None`, so that
`_validate_response` raises `AttributeError` (concrete test input). -/
def noneAnswerValCall : String → GenResult := fun _ => { answer := none }

/-- A Gemini model oracle returning whitespace-only text (concrete test
input). -/
def wsModel : String → Except PyExc (Option GeminiResponse) :=
  fun _ => Except.ok (some { text := some " " })

/-- A Gemini model oracle returning the text `hello` (concrete test input). -/
def helloModel : String → Except PyExc (Option GeminiResponse) :=
  fun _ => Except.ok (some { text := some "hello" })

/-- A Gemini model oracle returning the text `5` (concrete test input). -/
def fiveModel : String → Except PyExc (Option GeminiResponse) :=
  fun _ => Except.ok (some { text := some "5" })

/-- A Python `float` oracle parsing only the literal `5` (concrete test
input). -/
def parseFive : String → Option ℚ := fun s => if s = "5" then some 5 else none

/-- A workflow state whose response carries the error value `""` — non-null
but falsy in Python (concrete test input). -/
def emptyErrState : WFState :=
  { query := "q", response := some { answer := some "ans", error := some "" } }

/-- The error result produced by `process_query` when the duplicate `context`
keyword `TypeError` is caught. -/
def typeErrorResult : GenResult :=
  { answer := none
    error := some duplicateContextMsg
    sources := some []
    metadata := { error_type := some "TypeError" } }

theorem validate_response_ok_attempt (valCall : String → GenResult) (pf : String → Option ℚ)
    (s s2 : WFState) (h : (validate_response valCall pf s).1 = Except.ok s2) :
    s2.attempt = s.attempt := by
  unfold validate_response at h
  split at h
  · simp at h
  · split at h
    · simp only [Except.ok.injEq] at h
      subst h
      rfl
    · split at h
      · simp at h
      · split at h
        · simp at h
        · simp only [Except.ok.injEq] at h
          subst h
          rfl

/-- C2: the regeneration predicate is `not valid and attempt < 3`, with the
Python `.get` defaults (`valid` defaults to false, `attempt` to 0), and the
three concrete instances from the spec. -/
theorem C2_should_regenerate_spec :
    (∀ s : WFState, should_regenerate s = true ↔
      (s.valid.getD false = false ∧ s.attempt.getD 0 < 3)) ∧
    should_regenerate { valid := some false, attempt := some 1 } = true ∧
    should_regenerate { valid := some true, attempt := some 1 } = false ∧
    should_regenerate { valid := some false, attempt := some 3 } = false := by
  refine ⟨fun s => ?_, rfl, rfl, rfl⟩
  simp [should_regenerate, Bool.and_eq_true, Bool.not_eq_true']

/-- C10: every `_generate_response` node execution calls
`process_query(query=query, context=[...])`, whose inner
`generate_response(query=query, context=context, **kwargs)` call raises a
duplicate-keyword `TypeError`; the `except` inside `process_query` converts
it to an error-shaped Generation Result with `answer = None`,
`error = str(e)` and `metadata.error_type = "TypeError"` — never a success. -/
theorem C10_duplicate_context_kwarg (retriever : String → List ScoredDocument)
    (genResp : String → List String → GenResult) (s : WFState) :
    (generate_response_node (workflow_pq retriever genResp) s).1.response =
      some typeErrorResult ∧
    (∀ q : String, ∀ ctx : List String,
      workflow_pq retriever genResp q ctx = (typeErrorResult, 1)) ∧
    typeErrorResult.answer = none ∧
    typeErrorResult.error = some duplicateContextMsg ∧
    typeErrorResult.metadata.error_type = some "TypeError" := by
  refine ⟨?_, fun q ctx => ?_, rfl, rfl, rfl⟩
  · simp [generate_response_node, workflow_pq, process_query, typeErrorResult]
  · simp [workflow_pq, process_query, typeErrorResult]

/-- C6: a query that is empty after trimming yields the
`Query cannot be empty` / `ValueError` result without invoking the model
(invocation flag false); for every query non-empty after trimming that early
branch is not taken and the model is invoked. -/
theorem C6_empty_query (modelCall : String → Except PyExc (Option GeminiResponse))
    (query : String) (context : List String) :
    (pyStrip query = "" →
      generate_response modelCall query context = (emptyQueryResult, false)) ∧
    (pyStrip query ≠ "" → (generate_response modelCall query context).2 = true) := by
  constructor
  · intro h
    simp [generate_response, h]
  · intro h
    unfold generate_response
    rw [if_neg h]
    repeat' split
    all_goals rfl

theorem C6_empty_query_witness :
    generate_response helloModel "   " [] = (emptyQueryResult, false) ∧
    (generate_response helloModel "hi" []).2 = true :=
  ⟨(C6_empty_query helloModel "   " []).1 (by decide),
   (C6_empty_query helloModel "hi" []).2 (by decide)⟩

/-- C7 as stated is false: a whitespace-only but non-empty model text is
truthy in Python, so `not response.text` does not fire; the generator returns
a success-shaped result whose answer is the text trimmed to the empty string,
not the `No response generated from the model` / `ModelError` result. -/
theorem C7_counterexample :
    (generate_response wsModel "q" []).1.answer = some "" ∧
    (generate_response wsModel "q" []).1.error = none ∧
    (generate_response wsModel "q" []).1 ≠ modelErrorResult := by
  refine ⟨rfl, rfl, by decide⟩

/-- C7 amended: for a non-empty query, a succeeding model call returns the
`ModelError` result exactly when the response object is falsy or its text is
`None` or the empty string; a non-empty (even whitespace-only) text instead
produces a success-shaped result whose answer is the trimmed text. -/
theorem C7_empty_text_check (modelCall : String → Except PyExc (Option GeminiResponse))
    (query : String) (context : List String) (h : pyStrip query ≠ "") :
    (modelCall (prepare_prompt query context) = Except.ok none →
      (generate_response modelCall query context).1 = modelErrorResult) ∧
    (∀ r : GeminiResponse, modelCall (prepare_prompt query context) = Except.ok (some r) →
      ((r.text = none ∨ r.text = some "") →
        (generate_response modelCall query context).1 = modelErrorResult) ∧
      (∀ t : String, r.text = some t → t ≠ "" →
        (generate_response modelCall query context).1.answer = some (pyStrip t) ∧
        (generate_response modelCall query context).1.error = none)) := by
  constructor
  · intro hm
    simp [generate_response, h, hm]
  · intro r hm
    constructor
    · intro htext
      cases htext with
      | inl hn => simp [generate_response, h, hm, hn]
      | inr he => simp [generate_response, h, hm, he]
    · intro t htext hne
      constructor
      · simp [generate_response, h, hm, htext, hne]
      · simp [generate_response, h, hm, htext, hne]

theorem C7_empty_text_check_witness :
    (generate_response wsModel "q" []).1.answer = some (pyStrip " ") ∧
    (generate_response wsModel "q" []).1.error = none :=
  ((C7_empty_text_check wsModel "q" [] (by decide)).2 { text := some " " } rfl).2
    " " rfl (by decide)

/-- C8: the relevance scorer always returns a value in `[0, 1]`; when the
model text parses as a number the result is that value clamped by
`min(max(score, 0), 1)`, and every internal failure (raised model call, falsy
response, missing text, unparseable text) returns exactly `0`. -/
theorem C8_relevance_score_clamped (modelCall : String → Except PyExc (Option GeminiResponse))
    (pf : String → Option ℚ) (q d : String) :
    (0 ≤ analyze_relevance modelCall pf q d ∧ analyze_relevance modelCall pf q d ≤ 1) ∧
    (∀ r : GeminiResponse, ∀ t : String, ∀ x : ℚ,
      modelCall (relevancePrompt q d) = Except.ok (some r) → r.text = some t →
      pf (pyStrip t) = some x →
      analyze_relevance modelCall pf q d = min (max x 0) 1) ∧
    (∀ e : PyExc, modelCall (relevancePrompt q d) = Except.error e →
      analyze_relevance modelCall pf q d = 0) ∧
    (modelCall (relevancePrompt q d) = Except.ok none →
      analyze_relevance modelCall pf q d = 0) ∧
    (∀ r : GeminiResponse, modelCall (relevancePrompt q d) = Except.ok (some r) →
      (r.text = none → analyze_relevance modelCall pf q d = 0) ∧
      (∀ t : String, r.text = some t → pf (pyStrip t) = none →
        analyze_relevance modelCall pf q d = 0)) := by
  refine ⟨?_, ?_, ?_, ?_, ?_⟩
  · constructor
    · unfold analyze_relevance
      repeat' split
      all_goals norm_num
    · unfold analyze_relevance
      repeat' split
      all_goals norm_num
  · intro r t x hm ht hp
    simp [analyze_relevance, hm, ht, hp]
  · intro e hm
    simp [analyze_relevance, hm]
  · intro hm
    simp [analyze_relevance, hm]
  · intro r hm
    constructor
    · intro ht
      simp [analyze_relevance, hm, ht]
    · intro t ht hp
      simp [analyze_relevance, hm, ht, hp]

theorem C8_relevance_score_clamped_witness :
    analyze_relevance fiveModel parseFive "q" "d" = min (max 5 0) 1 :=
  (C8_relevance_score_clamped fiveModel parseFive "q" "d").2.1
    { text := some "5" } "5" 5 rfl rfl (by decide)

/-- C5 as stated is false for a non-null error: the short-circuit is the
truthiness test `if response.get("error"):`, so a present-but-empty error
string `""` does not short-circuit — the validator proceeds to the model
call (second component true) and can even set `valid = True`. -/
theorem C5_counterexample :
    (validate_response demoValCall demoPF emptyErrState).2 = true ∧
    (validate_response demoValCall demoPF emptyErrState).1 =
      Except.ok { emptyErrState with valid := some true, quality_score := some 1 } := by
  constructor
  · rfl
  · rfl

/-- C5 amended: for every state whose response carries a non-null and
non-empty error string at VALIDATE, the validator sets `valid = False`
without making any model call (second component false), and the original
error string is preserved unchanged in the resulting state. -/
theorem C5_error_short_circuit (valCall : String → GenResult) (pf : String → Option ℚ)
    (s : WFState) (r : GenResult) (e : String)
    (hr : s.response = some r) (he : r.error = some e) (hne : e ≠ "") :
    validate_response valCall pf s =
      (Except.ok { s with valid := some false, error := some e }, false) := by
  have ht : pyTruthyStr (some e) = true := by
    simp [pyTruthyStr, hne]
  simp [validate_response, hr, he, ht]

theorem C5_error_short_circuit_witness :
    validate_response demoValCall demoPF
        { query := "q", response := some { answer := none, error := some "boom" } } =
      (Except.ok
        { query := "q", response := some { answer := none, error := some "boom" },
          valid := some false, error := some "boom" }, false) :=
  C5_error_short_circuit demoValCall demoPF
    { query := "q", response := some { answer := none, error := some "boom" } }
    { answer := none, error := some "boom" } "boom" rfl rfl (by decide)

theorem generate_response_node_attempt (pq : String → List String → GenResult × Nat)
    (s : WFState) :
    (generate_response_node pq s).1.attempt = some (s.attempt.getD 0 + 1) := rfl

/-- The generate–validate cycle started at `attempt = a < 3` with fuel at
least `3 - a` performs between 1 and `3 - a` generation attempts, and when it
completes without an exception the final `attempt` equals the initial value
plus the number of generation attempts performed.  In particular the
fuel-exhaustion branch is never taken: every exit is decided by
`should_regenerate` or by an exception. -/
theorem gen_validate_loop_spec (pq : String → List String → GenResult × Nat)
    (valCall : String → GenResult) (pf : String → Option ℚ) :
    ∀ (fuel a : Nat) (s : WFState), s.attempt = some a → a < 3 → 3 - a ≤ fuel →
      1 ≤ (gen_validate_loop pq valCall pf fuel s).genCalls ∧
      a + (gen_validate_loop pq valCall pf fuel s).genCalls ≤ 3 ∧
      ∀ s2, (gen_validate_loop pq valCall pf fuel s).result = Except.ok s2 →
        s2.attempt = some (a + (gen_validate_loop pq valCall pf fuel s).genCalls) := by
  intro fuel
  induction fuel with
  | zero =>
    intro a s ha hlt hf
    omega
  | succ fuel ih =>
    intro a s ha hlt hf
    cases hv : (validate_response valCall pf (generate_response_node pq s).1).1 with
    | error e =>
      refine ⟨?_, ?_, ?_⟩
      · simp [gen_validate_loop, hv]
      · simp [gen_validate_loop, hv]
        omega
      · intro s2 hres
        simp [gen_validate_loop, hv] at hres
    | ok s2 =>
      have hatt : s2.attempt = some (a + 1) := by
        have h1 := validate_response_ok_attempt valCall pf _ s2 hv
        rw [h1, generate_response_node_attempt, ha]
        rfl
      by_cases hreg : should_regenerate s2 = true
      · have ha2 : a + 1 < 3 := by
          have h2 := hreg
          simp [should_regenerate, hatt] at h2
          omega
        obtain ⟨ih1, ih2, ih3⟩ := ih (a + 1) s2 hatt ha2 (by omega)
        refine ⟨?_, ?_, ?_⟩
        · simp [gen_validate_loop, hv, hreg]
        · simp [gen_validate_loop, hv, hreg]
          omega
        · intro s3 hres
          simp only [gen_validate_loop, hv, hreg, if_true] at hres ⊢
          have h3 := ih3 s3 hres
          rw [h3]
          congr 1
          omega
      · refine ⟨?_, ?_, ?_⟩
        · simp [gen_validate_loop, hv, hreg]
        · simp [gen_validate_loop, hv, hreg]
          omega
        · intro s3 hres
          simp only [gen_validate_loop, hv, hreg, if_false, Bool.false_eq_true] at hres
          simp only [Except.ok.injEq] at hres
          subst hres
          simp [gen_validate_loop, hv, hreg, hatt]

theorem workflow_run_of_error (retriever : String → List ScoredDocument)
    (pq : String → List String → GenResult × Nat)
    (valCall : String → GenResult) (pf : String → Option ℚ) (inputs : WFState)
    (e : PyExc) (hs : (graph_arun retriever pq valCall pf inputs).result = Except.error e) :
    workflow_run retriever pq valCall pf inputs =
      { answer := none
        sources := []
        error := some e.msg
        meta := { error_type := some e.type } } := by
  unfold workflow_run
  rw [hs]

theorem workflow_run_of_ok (retriever : String → List ScoredDocument)
    (pq : String → List String → GenResult × Nat)
    (valCall : String → GenResult) (pf : String → Option ℚ) (inputs : WFState)
    (s : WFState) (r : GenResult)
    (hs : (graph_arun retriever pq valCall pf inputs).result = Except.ok s)
    (hr : s.response = some r) :
    workflow_run retriever pq valCall pf inputs =
      { answer := r.answer
        sources := r.sources.getD []
        error := none
        quality_score := s.quality_score
        attempts := some (s.attempt.getD 1)
        meta := r.metadata } := by
  unfold workflow_run
  rw [hs]
  simp [hr]

theorem workflow_run_of_no_response (retriever : String → List ScoredDocument)
    (pq : String → List String → GenResult × Nat)
    (valCall : String → GenResult) (pf : String → Option ℚ) (inputs : WFState)
    (s : WFState)
    (hs : (graph_arun retriever pq valCall pf inputs).result = Except.ok s)
    (hr : s.response = none) :
    workflow_run retriever pq valCall pf inputs =
      { answer := none
        sources := []
        error := some "\x27response\x27"
        meta := { error_type := some "KeyError" } } := by
  unfold workflow_run
  rw [hs]
  simp [hr]

/-- C1: for every initial state, the graph (entered at RETRIEVE, which sets
`attempt = 0`, after which `attempt` is incremented exactly once per GENERATE)
terminates having made at least 1 and at most 3 generation attempts; when the
run completes without an exception the final `attempt` equals the number of
generation attempts made, and the `attempts` field of the formatted result,
whenever present, is never greater than 3 and never less than 1. -/
theorem C1_attempt_bound (retriever : String → List ScoredDocument)
    (pq : String → List String → GenResult × Nat)
    (valCall : String → GenResult) (pf : String → Option ℚ) (inputs : WFState) :
    1 ≤ (graph_arun retriever pq valCall pf inputs).genCalls ∧
    (graph_arun retriever pq valCall pf inputs).genCalls ≤ 3 ∧
    (∀ s : WFState, (graph_arun retriever pq valCall pf inputs).result = Except.ok s →
      s.attempt = some (graph_arun retriever pq valCall pf inputs).genCalls) ∧
    (∀ n : Nat, (workflow_run retriever pq valCall pf inputs).attempts = some n →
      1 ≤ n ∧ n ≤ 3) := by
  obtain ⟨h1, h2, h3⟩ :=
    gen_validate_loop_spec pq valCall pf 3 0 (retrieve_context retriever inputs)
      rfl (by omega) (by omega)
  have hgen : (graph_arun retriever pq valCall pf inputs).genCalls =
      (gen_validate_loop pq valCall pf 3 (retrieve_context retriever inputs)).genCalls := rfl
  have hres : (graph_arun retriever pq valCall pf inputs).result =
      (gen_validate_loop pq valCall pf 3 (retrieve_context retriever inputs)).result := rfl
  have hok : ∀ s : WFState,
      (graph_arun retriever pq valCall pf inputs).result = Except.ok s →
      s.attempt = some (graph_arun retriever pq valCall pf inputs).genCalls := by
    intro s hs
    rw [hres] at hs
    have h4 := h3 s hs
    rw [h4, hgen]
    simp
  refine ⟨by rw [hgen]; exact h1, by rw [hgen]; omega, hok, ?_⟩
  intro n hn
  cases hrun : (graph_arun retriever pq valCall pf inputs).result with
  | error e =>
    rw [workflow_run_of_error retriever pq valCall pf inputs e hrun] at hn
    simp at hn
  | ok s =>
    cases hresp : s.response with
    | none =>
      rw [workflow_run_of_no_response retriever pq valCall pf inputs s hrun hresp] at hn
      simp at hn
    | some r =>
      rw [workflow_run_of_ok retriever pq valCall pf inputs s r hrun hresp] at hn
      simp only [Option.some.injEq] at hn
      have hatt := hok s hrun
      rw [hatt] at hn
      simp only [Option.getD_some] at hn
      rw [hgen] at hn
      omega

theorem C1_attempt_bound_witness :
    1 ≤ (graph_arun demoRetriever okPQ demoValCall demoPF { query := "q" }).genCalls ∧
    (1 ≤ 1 ∧ 1 ≤ 3) := by
  have h := C1_attempt_bound demoRetriever okPQ demoValCall demoPF { query := "q" }
  exact ⟨h.1, h.2.2.2 1 rfl⟩

theorem process_query_retrieval_count (retriever : String → List ScoredDocument)
    (genResp : String → List String → GenResult) (query : String) (k : Bool) :
    (process_query retriever genResp query k).2 = 1 := by
  unfold process_query
  dsimp only
  repeat' split
  all_goals rfl

theorem gen_validate_loop_retrievals (pq : String → List String → GenResult × Nat)
    (valCall : String → GenResult) (pf : String → Option ℚ)
    (hpq : ∀ q : String, ∀ c : List String, (pq q c).2 = 1) :
    ∀ (fuel : Nat) (s : WFState),
      (gen_validate_loop pq valCall pf fuel s).retrievalCalls =
        (gen_validate_loop pq valCall pf fuel s).genCalls := by
  intro fuel
  induction fuel with
  | zero => intro s; rfl
  | succ fuel ih =>
    intro s
    have hg : (generate_response_node pq s).2 = 1 := hpq _ _
    cases hv : (validate_response valCall pf (generate_response_node pq s).1).1 with
    | error e => simp [gen_validate_loop, hv, hg]
    | ok s2 =>
      by_cases hreg : should_regenerate s2 = true
      · simp [gen_validate_loop, hv, hreg, hg, ih]
      · simp [gen_validate_loop, hv, hreg, hg]

/-- C3 as stated is false: with the workflow composition actually present in
the source (GENERATE calling `process_query`, which performs its own
retrieval), a run of the demo pipeline executes retrieval four times — once
at RETRIEVE plus once per generation attempt — not exactly once. -/
theorem C3_counterexample :
    (graph_arun demoRetriever demoPQ demoValCall demoPF { query := "q" }).retrievalCalls = 4 ∧
    (graph_arun demoRetriever demoPQ demoValCall demoPF { query := "q" }).retrievalCalls ≠ 1 := by
  have h : (graph_arun demoRetriever demoPQ demoValCall demoPF
      { query := "q" }).retrievalCalls = 4 := rfl
  refine ⟨h, ?_⟩
  rw [h]
  omega

/-- C3 amended: the RETRIEVE node itself runs exactly once per top-level
query and is never retried, but every GENERATE attempt performs its own
retrieval inside `process_query` (it does not reuse the context fetched at
RETRIEVE), so the total number of retrieval executions is one plus the number
of generation attempts. -/
theorem C3_retrieval_per_attempt (retriever : String → List ScoredDocument)
    (genResp : String → List String → GenResult)
    (valCall : String → GenResult) (pf : String → Option ℚ) (inputs : WFState) :
    (graph_arun retriever (workflow_pq retriever genResp) valCall pf inputs).retrievalCalls =
      1 + (graph_arun retriever (workflow_pq retriever genResp) valCall pf inputs).genCalls := by
  have hpq : ∀ q : String, ∀ c : List String, (workflow_pq retriever genResp q c).2 = 1 := by
    intro q c
    exact process_query_retrieval_count retriever genResp q true
  have hloop := gen_validate_loop_retrievals (workflow_pq retriever genResp) valCall pf hpq 3
    (retrieve_context retriever inputs)
  have hretr : (graph_arun retriever (workflow_pq retriever genResp) valCall pf
      inputs).retrievalCalls =
    (gen_validate_loop (workflow_pq retriever genResp) valCall pf 3
      (retrieve_context retriever inputs)).retrievalCalls + 1 := rfl
  have hgen : (graph_arun retriever (workflow_pq retriever genResp) valCall pf
      inputs).genCalls =
    (gen_validate_loop (workflow_pq retriever genResp) valCall pf 3
      (retrieve_context retriever inputs)).genCalls := rfl
  rw [hretr, hgen, hloop]
  omega

/-- C9 as stated is false on the normal-completion path: in the demo run the
graph completes with an error-shaped final response (its failure kind even
survives as `metadata.error_type`), yet the formatted result pairs a null
answer with no `error` field at all — the error string is dropped. -/
theorem C9_counterexample :
    (workflow_run demoRetriever demoPQ demoValCall demoPF { query := "q" }).answer = none ∧
    (workflow_run demoRetriever demoPQ demoValCall demoPF { query := "q" }).error = none ∧
    (workflow_run demoRetriever demoPQ demoValCall demoPF { query := "q" }).meta.error_type =
      some "TypeError" := by
  exact ⟨rfl, rfl, rfl⟩

/-- C9 amended: an exception escaping the run is converted to
`{answer: null, sources: [], metadata.error_type: class name, error:
str(exception)}`; on normal completion the caller receives the structured
result `{answer, sources, metadata}` with no top-level `error` field, so when
the final response is error-shaped only `metadata.error_type` (not the error
message) describes the failure. -/
theorem C9_run_boundary (retriever : String → List ScoredDocument)
    (pq : String → List String → GenResult × Nat)
    (valCall : String → GenResult) (pf : String → Option ℚ) (inputs : WFState) :
    (∀ e : PyExc, (graph_arun retriever pq valCall pf inputs).result = Except.error e →
      workflow_run retriever pq valCall pf inputs =
        { answer := none
          sources := []
          error := some e.msg
          meta := { error_type := some e.type } }) ∧
    (∀ s : WFState, ∀ r : GenResult,
      (graph_arun retriever pq valCall pf inputs).result = Except.ok s →
      s.response = some r →
      workflow_run retriever pq valCall pf inputs =
        { answer := r.answer
          sources := r.sources.getD []
          error := none
          quality_score := s.quality_score
          attempts := some (s.attempt.getD 1)
          meta := r.metadata }) :=
  ⟨fun e he => workflow_run_of_error retriever pq valCall pf inputs e he,
   fun s r hs hr => workflow_run_of_ok retriever pq valCall pf inputs s r hs hr⟩

theorem C9_run_boundary_witness :
    workflow_run demoRetriever okPQ noneAnswerValCall demoPF { query := "q" } =
      { answer := none
        sources := []
        error := some "\x27NoneType\x27 object has no attribute \x27strip\x27"
        meta := { error_type := some "AttributeError" } } :=
  (C9_run_boundary demoRetriever okPQ noneAnswerValCall demoPF { query := "q" }).1
    ⟨"\x27NoneType\x27 object has no attribute \x27strip\x27", "AttributeError"⟩ rfl

theorem scoreAndFilterDocs_score (threshold : ℚ) (scorer : String → ℚ) :
    ∀ (l : List Document) (d : ScoredDocument),
      d ∈ scoreAndFilterDocs threshold scorer l → threshold ≤ d.score := by
  intro l
  induction l with
  | nil =>
    intro d hd
    simp [scoreAndFilterDocs] at hd
  | cons a rest ih =>
    intro d hd
    unfold scoreAndFilterDocs at hd
    by_cases hc : threshold ≤ scorer a.content
    · rw [if_pos hc] at hd
      rcases List.mem_cons.mp hd with h | h
      · subst h
        exact hc
      · exact ih d h
    · rw [if_neg hc] at hd
      exact ih d hd

/-- C4: every document retained by the relevance filter scores at or above
the configured threshold, the output is sorted non-increasing by score, and
documents with equal scores keep the relative order produced by the scoring
pass: filtering the output at any score level gives exactly the scoring
pass's sublist at that level (stability of the sort). -/
theorem C4_relevance_filter (threshold : ℚ) (scorer : String → ℚ)
    (candidates : List Document) :
    (∀ d : ScoredDocument, d ∈ retrieve_relevant_documents threshold scorer candidates →
      threshold ≤ d.score) ∧
    (retrieve_relevant_documents threshold scorer candidates).Pairwise
      (fun a b => b.score ≤ a.score) ∧
    (∀ q : ℚ,
      (retrieve_relevant_documents threshold scorer candidates).filter
          (fun d => decide (d.score = q)) =
        (scoreAndFilterDocs threshold scorer candidates).filter
          (fun d => decide (d.score = q))) := by
  have htrans : ∀ a b c : ScoredDocument,
      (decide (b.score ≤ a.score) : Bool) → (decide (c.score ≤ b.score) : Bool) →
      (decide (c.score ≤ a.score) : Bool) := by
    intro a b c hab hbc
    simp only [decide_eq_true_eq] at hab hbc ⊢
    exact le_trans hbc hab
  have htotal : ∀ a b : ScoredDocument,
      ((decide (b.score ≤ a.score) : Bool) || (decide (a.score ≤ b.score) : Bool)) = true := by
    intro a b
    simp only [Bool.or_eq_true, decide_eq_true_eq]
    exact le_total b.score a.score
  refine ⟨?_, ?_, ?_⟩
  · intro d hd
    unfold retrieve_relevant_documents at hd
    exact scoreAndFilterDocs_score threshold scorer candidates d (List.mem_mergeSort.mp hd)
  · have hp := List.sorted_mergeSort htrans htotal
      (scoreAndFilterDocs threshold scorer candidates)
    exact hp.imp (fun h => of_decide_eq_true h)
  · intro q
    have hmem : ∀ x : ScoredDocument,
        x ∈ (scoreAndFilterDocs threshold scorer candidates).filter
          (fun d => decide (d.score = q)) → x.score = q := by
      intro x hx
      have h2 := (List.mem_filter.mp hx).2
      exact of_decide_eq_true h2
    have hpair : ((scoreAndFilterDocs threshold scorer candidates).filter
        (fun d => decide (d.score = q))).Pairwise
        (fun a b => (decide (b.score ≤ a.score) : Bool) = true) := by
      apply List.pairwise_of_forall_mem_list
      intro a ha b hb
      have ha2 := hmem a ha
      have hb2 := hmem b hb
      simp only [decide_eq_true_eq, ha2, hb2]
      exact le_refl q
    have h1 : List.Sublist
        ((scoreAndFilterDocs threshold scorer candidates).filter
          (fun d => decide (d.score = q)))
        (List.mergeSort (scoreAndFilterDocs threshold scorer candidates)
          (fun a b => decide (b.score ≤ a.score))) :=
      List.sublist_mergeSort htrans htotal hpair
        (List.filter_sublist (scoreAndFilterDocs threshold scorer candidates))
    have h2 := h1.filter (fun d => decide (d.score = q))
    rw [List.filter_eq_self.mpr (fun x hx => (List.mem_filter.mp hx).2)] at h2
    have hperm := (List.mergeSort_perm (scoreAndFilterDocs threshold scorer candidates)
      (fun a b => decide (b.score ≤ a.score))).filter (fun d => decide (d.score = q))
    unfold retrieve_relevant_documents
    exact (h2.eq_of_length hperm.length_eq.symm).symm

theorem C4_relevance_filter_witness :
    ((0 : ℚ) ≤ (⟨⟨"a", none⟩, 0⟩ : ScoredDocument).score) ∧
    ((retrieve_relevant_documents 0 (fun _ => 0) [⟨"a", none⟩]).filter
        (fun d => decide (d.score = 0)) =
      (scoreAndFilterDocs 0 (fun _ => 0) [⟨"a", none⟩]).filter
        (fun d => decide (d.score = 0))) := by
  have h := C4_relevance_filter 0 (fun _ => 0) [⟨"a", none⟩]
  refine ⟨h.1 ⟨⟨"a", none⟩, 0⟩ ?_, h.2.2 0⟩
  simp [retrieve_relevant_documents, scoreAndFilterDocs]

theorem VALIDATION_THRESHOLD_eq : VALIDATION_THRESHOLD = 7 / 10 := by
  unfold VALIDATION_THRESHOLD
  rw [Rat.mk'_eq_divInt, Rat.divInt_eq_div]
  norm_num
